import Mathlib

/-!
Shallow embedding of the bulk-messaging tool: the class WhatsAppBulkSender of
src/whatsapp_sender.py and the row-range selection of src/app.py.

Modelling conventions:
* A contact record (a pandas row turned into a dict) is an association list
  from column name to string value, insertion order preserved.
* All browser automation is reduced to its observable success or failure: an
  oracle Bool decides whether open_whatsapp_web succeeds, and an oracle
  Nat -> Option String decides, per 1-based loop index, whether the selenium
  steps of send_message succeed (none) or raise an exception whose message is
  the given string (some e).
* time.sleep calls are recorded as events in an explicit trace; so is each
  chat-navigation attempt.
* datetime.now timestamps and the constant 'status' field of a sent entry are
  dropped from the outcome records: no claim depends on them.
* Python floats are modelled as exact rationals.
-/

/-- The full whitespace set stripped by Python str.strip: the ASCII
whitespace characters, the C1 separators, NEL, NBSP, Ogham space mark, the
U+2000 to U+200A spaces, the line and paragraph separators, the narrow
no-break space, the medium mathematical space and the ideographic space. -/
def isPyWs (c : Char) : Bool :=
  c = ' ' || c = '\t' || c = '\n' || c = '\r' || c = '\x0b' || c = '\x0c' ||
  c = '\x1c' || c = '\x1d' || c = '\x1e' || c = '\x1f' || c = '\x85' ||
  c = '\xa0' || c = '\u1680' || c = '\u2000' || c = '\u2001' ||
  c = '\u2002' || c = '\u2003' || c = '\u2004' || c = '\u2005' ||
  c = '\u2006' || c = '\u2007' || c = '\u2008' || c = '\u2009' ||
  c = '\u200a' || c = '\u2028' || c = '\u2029' || c = '\u202f' ||
  c = '\u205f' || c = '\u3000'

/-- Python str.strip: remove leading and trailing whitespace. -/
def pyStrip (l : List Char) : List Char :=
  ((l.dropWhile isPyWs).reverse.dropWhile isPyWs).reverse

/-- The separators removed by format_phone_number: the four chained
str.replace calls delete every occurrence of these characters. -/
def isSep (c : Char) : Bool :=
  c = '-' || c = ' ' || c = '(' || c = ')'

/-- The prefixing step of format_phone_number: if the cleaned digits do not
start with a plus sign, prepend +91, unless they already start with the
digits 91, in which case prepend only +. -/
def format_phone_core (p : List Char) : List Char :=
  if p.take 1 = ['+'] then p
  else if p.take 2 = ['9', '1'] then '+' :: p
  else '+' :: '9' :: '1' :: p

/-- format_phone_number (whatsapp_sender.py, lines 64-79): strip, delete the
separators, then fix the international prefix. -/
def format_phone_number (s : String) : String :=
  String.mk (format_phone_core ((pyStrip s.data).filter (fun c => !isSep c)))

/-- One contact record: a dict from column name to value, order preserved. -/
abbrev Contact := List (String × String)

/-- Python dict.get with default. -/
def getD (c : Contact) (k v : String) : String :=
  (c.lookup k).getD v

/-- A parsed message template: literal pieces and field placeholders. -/
inductive TemplatePart where
  | lit (s : String)
  | field (k : String)
deriving DecidableEq

abbrev Template := List TemplatePart

/-- Python str.format(**record): substitute each placeholder from the record;
a placeholder naming a missing key raises KeyError, modelled as .error with
the leftmost missing key. -/
def pyFormat (t : Template) (c : Contact) : Except String String :=
  match t with
  | [] => .ok ""
  | .lit s :: rest => (pyFormat rest c).map (fun r => s ++ r)
  | .field k :: rest =>
    match c.lookup k with
    | none => .error k
    | some v => (pyFormat rest c).map (fun r => v ++ r)

/-- An entry of self.sent_messages (name and formatted phone; the timestamp
and constant status field are dropped). -/
structure SentEntry where
  name : String
  phone : String
deriving DecidableEq

/-- An entry of self.failed_messages (name, raw phone, error message; the
timestamp is dropped). -/
structure FailedEntry where
  name : String
  phone : String
  error : String
deriving DecidableEq

/-- The mutable state of one WhatsAppBulkSender instance. The driver field is
true when a live selenium handle is held, false when self.driver is None. -/
structure SenderState where
  contacts : List Contact
  sent_messages : List SentEntry
  failed_messages : List FailedEntry
  driver : Bool
  wait_time : Nat
deriving DecidableEq

/-- Observable events of a run: a chat-navigation attempt for a named
contact, the time.sleep(self.wait_time) inside send_message, and the
time.sleep(delay_seconds) at the bottom of the bulk loop. -/
inductive Event where
  | attempt (name : String)
  | sleepWait (secs : Nat)
  | sleepDelay (secs : Nat)
deriving DecidableEq

def Event.isDelay : Event → Bool
  | .sleepDelay _ => true
  | _ => false

/-- send_message (whatsapp_sender.py, lines 114-170). If self.driver is None
it returns False at once, touching nothing. Otherwise the selenium steps
either all succeed (ok = none): the sent entry is appended, the wait_time
sleep happens, True is returned; or some step raises (ok = some e): the
failed entry with the raw phone is appended and False is returned. -/
def send_message (ok : Option String) (st : SenderState)
    (phone _message name : String) : SenderState × Bool × List Event :=
  if st.driver then
    match ok with
    | none =>
      ({ st with sent_messages :=
          st.sent_messages ++ [⟨name, format_phone_number phone⟩] },
       true, [.attempt name, .sleepWait st.wait_time])
    | some e =>
      ({ st with failed_messages := st.failed_messages ++ [⟨name, phone, e⟩] },
       false, [.attempt name])
  else (st, false, [])

/-- open_whatsapp_web (whatsapp_sender.py, lines 81-112): on success the
driver is live and True is returned; on any failure the partially-started
driver is quit, self.driver is set to None and False is returned. -/
def open_whatsapp_web (ok : Bool) (st : SenderState) : SenderState × Bool :=
  if ok then ({ st with driver := true }, true)
  else ({ st with driver := false }, false)

/-- The body of the for-loop of send_bulk_messages (lines 194-207), walking
the remaining contacts with 1-based index i out of n. Per contact: read
phone_number and name with dict.get defaults, personalise the template
(a KeyError propagates: the loop stops and the key is returned), call
send_message, then sleep delay_seconds when i < n. -/
def loopGo (env : Nat → Option String) (tmpl : Template) (delay : Nat)
    (n : Nat) : Nat → SenderState → List Contact →
    SenderState × Option String × List Event
  | _, st, [] => (st, none, [])
  | i, st, c :: rest =>
    let phone := getD c "phone_number" ""
    let name := getD c "name" "Unknown"
    match pyFormat tmpl c with
    | .error k => (st, some k, [])
    | .ok msg =>
      let r1 := send_message (env i) st phone msg name
      let ev2 : List Event := if i < n then [.sleepDelay delay] else []
      let r2 := loopGo env tmpl delay n (i + 1) r1.1 rest
      (r2.1, r2.2.1, r1.2.2 ++ ev2 ++ r2.2.2)

/-- What a call to send_bulk_messages surfaces to its caller: Python None
(no contacts, or open_whatsapp_web failed), a propagated exception carrying
the missing template key, or the summary dict. -/
inductive RunResult where
  | noSummary
  | exn (key : String)
  | summary (total sent failed : Nat) (success_rate : ℚ)
deriving DecidableEq

def RunResult.total? : RunResult → Option Nat
  | .summary t _ _ _ => some t
  | _ => none

def RunResult.sent? : RunResult → Option Nat
  | .summary _ s _ _ => some s
  | _ => none

def RunResult.rate? : RunResult → Option ℚ
  | .summary _ _ _ r => some r
  | _ => none

/-- The success_rate expression of the summary dict (line 220):
len(sent)/len(contacts)*100 when self.contacts is nonempty, else 0. -/
def bulk_success_rate (contacts : List Contact) (sentLen : Nat) : ℚ :=
  if contacts = [] then 0
  else (sentLen : ℚ) / (contacts.length : ℚ) * 100

/-- send_bulk_messages (whatsapp_sender.py, lines 172-221). Returns the final
state, the surfaced result, and the event trace. The try/finally quits the
driver on every path through the loop, summary and exception alike. -/
def send_bulk_messages (openOk : Bool) (env : Nat → Option String)
    (st : SenderState) (tmpl : Template) (delay : Nat) :
    SenderState × RunResult × List Event :=
  if st.contacts = [] then (st, .noSummary, [])
  else
    let o := open_whatsapp_web openOk st
    if o.2 then
      let r := loopGo env tmpl delay st.contacts.length 1 o.1 st.contacts
      let stF := { r.1 with driver := false }
      match r.2.1 with
      | some k => (stF, .exn k, r.2.2)
      | none =>
        (stF, .summary st.contacts.length stF.sent_messages.length
          stF.failed_messages.length
          (bulk_success_rate st.contacts stF.sent_messages.length), r.2.2)
    else (o.1, .noSummary, [])

/-- The summary dict of get_report (lines 228-233): counts over the two
outcome lists, rate over sent+failed, guarded by both lists being empty. -/
structure ReportSummary where
  total_sent : Nat
  total_failed : Nat
  success_rate : ℚ
deriving DecidableEq

structure Report where
  sent : List SentEntry
  failed : List FailedEntry
  summary : ReportSummary
deriving DecidableEq

/-- get_report (whatsapp_sender.py, lines 223-234). -/
def get_report (st : SenderState) : Report :=
  { sent := st.sent_messages
    failed := st.failed_messages
    summary :=
      { total_sent := st.sent_messages.length
        total_failed := st.failed_messages.length
        success_rate :=
          if st.sent_messages = [] ∧ st.failed_messages = [] then 0
          else (st.sent_messages.length : ℚ) /
            ((st.sent_messages.length + st.failed_messages.length : Nat) : ℚ)
            * 100 } }

/-- Python list slice lst a to b for nonnegative bounds: drop a, keep b - a. -/
def pySlice (l : List Contact) (a b : Nat) : List Contact :=
  (l.drop a).take (b - a)

/-- The row-range selection of app.py, line 161:
sender.contacts sliced from start_row-1 to end_row. -/
def contacts_to_send (l : List Contact) (start_row end_row : Nat) :
    List Contact :=
  pySlice l (start_row - 1) end_row

/-- The event trace the send loop produces from index i on, written as an
explicit formula: per contact one attempt, then the wait_time sleep exactly
when that send succeeded, then the delay_seconds sleep exactly when the
contact is not the last (i < n). -/
def traceFrom (env : Nat → Option String) (wt delay n : Nat) :
    Nat → List Contact → List Event
  | _, [] => []
  | i, c :: rest =>
    ([Event.attempt (getD c "name" "Unknown")] ++
     (match env i with
      | none => [Event.sleepWait wt]
      | some _ => []) ++
     (if i < n then [Event.sleepDelay delay] else [])) ++
    traceFrom env wt delay n (i + 1) rest

/-- A concrete contact record used by the concrete evaluations below. -/
def cContact : Contact := [("phone_number", "9876543210"), ("name", "A")]

/-- A freshly constructed sender holding one contact. -/
def cState : SenderState :=
  { contacts := [cContact], sent_messages := [], failed_messages := [],
    driver := false, wait_time := 2 }

/-- A freshly constructed sender holding no contacts. -/
def cStateEmpty : SenderState :=
  { contacts := [], sent_messages := [], failed_messages := [],
    driver := false, wait_time := 2 }

def cC1 : Contact := [("phone_number", "1"), ("name", "A")]

def cC2 : Contact := [("phone_number", "2"), ("name", "B")]

/-- A freshly constructed sender holding two contacts. -/
def cState2 : SenderState :=
  { contacts := [cC1, cC2], sent_messages := [], failed_messages := [],
    driver := false, wait_time := 2 }

/-! ## Helper lemmas -/

theorem mem_of_mem_dropWhile {p : Char → Bool} :
    ∀ (l : List Char) (c : Char), c ∈ l.dropWhile p → c ∈ l := by
  intro l
  induction l with
  | nil => intro c hc; simp [List.dropWhile] at hc
  | cons a t ih =>
    intro c hc
    rw [List.dropWhile_cons] at hc
    by_cases hpa : p a = true
    · simp only [hpa, if_true] at hc
      exact List.mem_cons_of_mem a (ih c hc)
    · simp only [hpa, if_false] at hc
      exact hc

theorem mem_of_mem_pyStrip (l : List Char) (c : Char) (h : c ∈ pyStrip l) :
    c ∈ l := by
  unfold pyStrip at h
  rw [List.mem_reverse] at h
  have h1 := mem_of_mem_dropWhile _ _ h
  rw [List.mem_reverse] at h1
  exact mem_of_mem_dropWhile _ _ h1

theorem dropWhile_eq_self_of_all {p : Char → Bool} (l : List Char)
    (h : ∀ c ∈ l, p c = false) : l.dropWhile p = l := by
  cases l with
  | nil => rfl
  | cons a t =>
    rw [List.dropWhile_cons, h a (List.mem_cons_self a t)]
    simp

theorem pyStrip_eq_self (l : List Char) (h : ∀ c ∈ l, isPyWs c = false) :
    pyStrip l = l := by
  unfold pyStrip
  rw [dropWhile_eq_self_of_all l h]
  rw [dropWhile_eq_self_of_all l.reverse
    (fun c hc => h c (List.mem_reverse.mp hc))]
  exact List.reverse_reverse l

theorem format_phone_core_plus (p : List Char) :
    (format_phone_core p).take 1 = ['+'] := by
  unfold format_phone_core
  by_cases h1 : p.take 1 = ['+']
  · rw [if_pos h1]; exact h1
  · rw [if_neg h1]
    by_cases h2 : p.take 2 = ['9', '1'] <;> simp [h2]

theorem format_phone_core_idem (p : List Char) :
    format_phone_core (format_phone_core p) = format_phone_core p := by
  conv_lhs => rw [format_phone_core]
  rw [if_pos (format_phone_core_plus p)]

theorem mem_format_phone_core (p : List Char) (c : Char)
    (h : c ∈ format_phone_core p) : c ∈ p ∨ c = '+' ∨ c = '9' ∨ c = '1' := by
  unfold format_phone_core at h
  by_cases h1 : p.take 1 = ['+']
  · rw [if_pos h1] at h; exact Or.inl h
  · rw [if_neg h1] at h
    by_cases h2 : p.take 2 = ['9', '1'] <;> simp [h2] at h <;> tauto

/-! ## C6: idempotence of phone normalization -/

/-- Claim C6, counterexample: the input consisting of the digit 9, a tab and
an opening parenthesis normalizes to a string ending in a tab, which a second
normalization strips again, so normalization is not idempotent on every
input string. -/
theorem claim6_counterexample :
    format_phone_number (format_phone_number (String.mk ['9', '\t', '('])) ≠
      format_phone_number (String.mk ['9', '\t', '(']) := by
  decide

/-- Claim C6 (amended): phone normalization is idempotent on every input
string whose only whitespace characters are plain spaces (an interior tab or
newline survives the first pass prefixed, and is stripped by the second);
the four quoted examples normalize exactly as stated. -/
theorem claim6_amended :
    (∀ s : String, (∀ c ∈ s.data, isPyWs c = true → c = ' ') →
      format_phone_number (format_phone_number s) = format_phone_number s) ∧
    format_phone_number "+919876543210" = "+919876543210" ∧
    format_phone_number "9876543210" = "+919876543210" ∧
    format_phone_number "91 9876 543210" = "+919876543210" ∧
    format_phone_number "(98)76543210" = "+919876543210" := by
  refine ⟨?_, by decide, by decide, by decide, by decide⟩
  intro s h
  have hp : ∀ c ∈ (pyStrip s.data).filter (fun c => !isSep c),
      isPyWs c = false ∧ isSep c = false := by
    intro c hc
    have h1 : c ∈ pyStrip s.data := (List.mem_filter.mp hc).1
    have h2 : (!isSep c) = true := (List.mem_filter.mp hc).2
    have h3 : c ∈ s.data := mem_of_mem_pyStrip _ _ h1
    have h4 : isSep c = false := by simpa using h2
    refine ⟨?_, h4⟩
    cases hw : isPyWs c with
    | false => rfl
    | true =>
      have hsp : c = ' ' := h c h3 hw
      rw [hsp] at h4
      simp [isSep] at h4
  set p := (pyStrip s.data).filter (fun c => !isSep c) with hpdef
  have hq : ∀ c ∈ format_phone_core p, isPyWs c = false ∧ isSep c = false := by
    intro c hc
    rcases mem_format_phone_core p c hc with hmem | h1 | h1 | h1
    · exact hp c hmem
    all_goals subst h1
    all_goals exact ⟨by decide, by decide⟩
  suffices hl : format_phone_core
      ((pyStrip (format_phone_core p)).filter (fun c => !isSep c)) =
      format_phone_core p by
    show format_phone_number (format_phone_number s) = format_phone_number s
    unfold format_phone_number
    exact congrArg String.mk hl
  rw [pyStrip_eq_self _ (fun c hc => (hq c hc).1)]
  rw [List.filter_eq_self.mpr (fun c hc => by simp [(hq c hc).2])]
  rw [format_phone_core_idem]

/-- Closed witness for the amended C6 at a concrete input. -/
theorem claim6_witness :
    format_phone_number (format_phone_number "91 9876 543210") =
      format_phone_number "91 9876 543210" :=
  claim6_amended.1 "91 9876 543210" (by decide)

/-! ## C7: row-range selection -/

/-- Claim C7: over a loaded list of contacts, the selection by 1-based
inclusive start and end rows has length end - start + 1 and its j-th element
is the contact at 1-based position start + j, i.e. exactly the contacts at
positions start through end in load order. -/
theorem claim7_range (l : List Contact) (s e : Nat)
    (h1 : 1 ≤ s) (h2 : s ≤ e) (h3 : e ≤ l.length) :
    (contacts_to_send l s e).length = e - s + 1 ∧
    ∀ j, j < e - s + 1 → (contacts_to_send l s e)[j]? = l[s - 1 + j]? := by
  constructor
  · unfold contacts_to_send pySlice
    rw [List.length_take, List.length_drop]
    omega
  · intro j hj
    unfold contacts_to_send pySlice
    rw [List.getElem?_take_of_lt (by omega), List.getElem?_drop]

/-- Closed witness for C7: rows 2 to 3 of five loaded contacts. -/
theorem claim7_witness :
    (contacts_to_send [cC1, cC2, cContact, cC1, cC2] 2 3).length = 2 ∧
    ∀ j, j < 2 →
      (contacts_to_send [cC1, cC2, cContact, cC1, cC2] 2 3)[j]? =
        [cC1, cC2, cContact, cC1, cC2][2 - 1 + j]? :=
  claim7_range [cC1, cC2, cContact, cC1, cC2] 2 3 (by decide) (by decide)
    (by decide)

/-! ## C9: send_message with no live driver -/

/-- Claim C9: when self.driver is None, send_message returns False and
leaves the whole sender state, in particular both outcome lists, unchanged,
and performs no navigation or sleep. -/
theorem claim9_no_driver (ok : Option String) (st : SenderState)
    (phone message name : String) (h : st.driver = false) :
    send_message ok st phone message name = (st, false, []) := by
  unfold send_message
  rw [h]
  simp

/-- Closed witness for C9 at a concrete fresh sender. -/
theorem claim9_witness :
    send_message none cState "9876543210" "Hi" "A" = (cState, false, []) :=
  claim9_no_driver none cState "9876543210" "Hi" "A" rfl

/-! ## C1: missing template field -/

/-- Claim C1, counterexample: with one contact and a template naming a field
the record lacks, the run surfaces the KeyError to its caller and appends
nothing to the failed list, instead of recording a Failed outcome. -/
theorem claim1_counterexample :
    (send_bulk_messages true (fun _ => none) cState
        [TemplatePart.field "missing"] 5).2.1 = RunResult.exn "missing" ∧
    (send_bulk_messages true (fun _ => none) cState
        [TemplatePart.field "missing"] 5).1.failed_messages = [] := by
  exact ⟨rfl, rfl⟩

/-- Claim C1 (amended): when the template references a field absent from the
first contact record, the formatting failure is NOT captured as a Failed
outcome: no outcome is appended for any contact, the exception propagates to
the caller (carrying the missing key), the run does not continue, and the
try/finally still tears the driver down. -/
theorem claim1_amended (env : Nat → Option String) (st : SenderState)
    (tmpl : Template) (d : Nat) (c : Contact) (rest : List Contact)
    (k : String) (h1 : st.contacts = c :: rest)
    (h2 : pyFormat tmpl c = .error k) :
    send_bulk_messages true env st tmpl d =
      ({ st with driver := false }, .exn k, []) := by
  unfold send_bulk_messages open_whatsapp_web
  rw [h1]
  simp [loopGo, h2]

/-- Closed witness for the amended C1 at a concrete input. -/
theorem claim1_witness :
    send_bulk_messages true (fun _ => none) cState
        [TemplatePart.field "missing"] 5 =
      ({ cState with driver := false }, .exn "missing", []) :=
  claim1_amended (fun _ => none) cState [TemplatePart.field "missing"] 5
    cContact [] "missing" rfl rfl

/-! ## C4: failed authentication wait -/

/-- Claim C4, counterexample: the value surfaced after a failed
authentication wait (Python None) is exactly the value surfaced by the
no-contacts early exit, so the session-level failure is not distinguishable
from that other failure mode by the caller. -/
theorem claim4_counterexample :
    (send_bulk_messages false (fun _ => none) cState
        [TemplatePart.lit "Hi"] 5).2.1 =
    (send_bulk_messages true (fun _ => none) cStateEmpty
        [TemplatePart.lit "Hi"] 5).2.1 := by
  exact rfl

/-- Claim C4 (amended): when the authentication wait fails, no Sent or
Failed outcome is produced, the run surfaces Python None (distinct from any
completed run's summary dict, though identical to the no-contacts early
exit), and no live automation handle remains: the final driver is None. -/
theorem claim4_amended (env : Nat → Option String) (st : SenderState)
    (tmpl : Template) (d : Nat) (h : st.contacts ≠ []) :
    send_bulk_messages false env st tmpl d =
      ({ st with driver := false }, .noSummary, []) := by
  unfold send_bulk_messages open_whatsapp_web
  rw [if_neg h]
  simp

/-- Closed witness for the amended C4 at a concrete input. -/
theorem claim4_witness :
    send_bulk_messages false (fun _ => none) cState
        [TemplatePart.lit "Hi"] 5 =
      ({ cState with driver := false }, .noSummary, []) :=
  claim4_amended (fun _ => none) cState [TemplatePart.lit "Hi"] 5 (by decide)

/-! ## C5: zero contacts attempted -/

/-- Claim C5, counterexample: with zero contacts the run returns Python None
before any summary dict is built, so there is no summary whose
success rate equals 0: the surfaced result is not a summary at all. -/
theorem claim5_counterexample :
    (send_bulk_messages true (fun _ => none) cStateEmpty
        [TemplatePart.lit "Hi"] 5).2.1 = RunResult.noSummary := by
  exact rfl

/-- Claim C5 (amended): with zero contacts send_bulk_messages returns None
(no summary) and changes nothing; and any summary a run does return has a
strictly positive total, so the guarded success-rate division never divides
by the attempted-contact count when it is zero. -/
theorem claim5_amended :
    (∀ (openOk : Bool) (env : Nat → Option String) (st : SenderState)
        (tmpl : Template) (d : Nat), st.contacts = [] →
      send_bulk_messages openOk env st tmpl d = (st, .noSummary, [])) ∧
    (∀ (openOk : Bool) (env : Nat → Option String) (st : SenderState)
        (tmpl : Template) (d : Nat) (t : Nat),
      ((send_bulk_messages openOk env st tmpl d).2.1).total? = some t →
      0 < t) := by
  constructor
  · intro openOk env st tmpl d h
    unfold send_bulk_messages
    rw [if_pos h]
  · intro openOk env st tmpl d t h
    by_cases hc : st.contacts = []
    · unfold send_bulk_messages at h
      rw [if_pos hc] at h
      simp [RunResult.total?] at h
    · cases openOk with
      | false =>
        rw [claim4_amended env st tmpl d hc] at h
        simp [RunResult.total?] at h
      | true =>
        unfold send_bulk_messages open_whatsapp_web at h
        rw [if_neg hc] at h
        simp only [if_true] at h
        split at h
        · simp [RunResult.total?] at h
        · simp only [RunResult.total?, Option.some.injEq] at h
          have hlen : 0 < st.contacts.length := List.length_pos.mpr hc
          omega

/-- Closed witness for the amended C5 at concrete inputs. -/
theorem claim5_witness :
    send_bulk_messages true (fun _ => none) cStateEmpty
        [TemplatePart.lit "Hi"] 5 = (cStateEmpty, .noSummary, []) ∧
    (0 : Nat) < 1 :=
  ⟨claim5_amended.1 true (fun _ => none) cStateEmpty [TemplatePart.lit "Hi"]
      5 rfl,
   claim5_amended.2 true (fun _ => none) cState [TemplatePart.lit "Hi"] 5 1
      rfl⟩

/-! ## Loop invariants -/

/-- The send loop keeps the driver live, never touches contacts or
wait_time, only appends to the two outcome lists, and, when no KeyError
stopped it, appends exactly one outcome per contact processed. -/
theorem loopGo_spec (env : Nat → Option String) (tmpl : Template)
    (delay n : Nat) :
    ∀ (cs : List Contact) (i : Nat) (st : SenderState), st.driver = true →
    (loopGo env tmpl delay n i st cs).1.driver = true ∧
    (loopGo env tmpl delay n i st cs).1.contacts = st.contacts ∧
    (loopGo env tmpl delay n i st cs).1.wait_time = st.wait_time ∧
    ∃ a b,
      (loopGo env tmpl delay n i st cs).1.sent_messages =
        st.sent_messages ++ a ∧
      (loopGo env tmpl delay n i st cs).1.failed_messages =
        st.failed_messages ++ b ∧
      ((loopGo env tmpl delay n i st cs).2.1 = none →
        a.length + b.length = cs.length) := by
  intro cs
  induction cs with
  | nil =>
    intro i st h
    exact ⟨h, rfl, rfl, [], [], (List.append_nil _).symm,
      (List.append_nil _).symm, fun _ => rfl⟩
  | cons c rest ih =>
    intro i st h
    cases hf : pyFormat tmpl c with
    | error k =>
      have hred : loopGo env tmpl delay n i st (c :: rest) =
          (st, some k, []) := by
        simp [loopGo, hf]
      rw [hred]
      exact ⟨h, rfl, rfl, [], [], (List.append_nil _).symm,
        (List.append_nil _).symm, fun hx => by simp at hx⟩
    | ok msg =>
      cases henv : env i with
      | none =>
        have hred : loopGo env tmpl delay n i st (c :: rest) =
            ((loopGo env tmpl delay n (i + 1)
                { st with sent_messages := st.sent_messages ++
                  [⟨getD c "name" "Unknown",
                    format_phone_number (getD c "phone_number" "")⟩] }
                rest).1,
             (loopGo env tmpl delay n (i + 1)
                { st with sent_messages := st.sent_messages ++
                  [⟨getD c "name" "Unknown",
                    format_phone_number (getD c "phone_number" "")⟩] }
                rest).2.1,
             [Event.attempt (getD c "name" "Unknown"),
              Event.sleepWait st.wait_time] ++
               (if i < n then [Event.sleepDelay delay] else []) ++
               (loopGo env tmpl delay n (i + 1)
                  { st with sent_messages := st.sent_messages ++
                    [⟨getD c "name" "Unknown",
                      format_phone_number (getD c "phone_number" "")⟩] }
                  rest).2.2) := by
          simp [loopGo, hf, send_message, h, henv]
        rw [hred]
        obtain ⟨hd, hc2, hw, a, b, hs, hfl, hcount⟩ :=
          ih (i + 1)
            { st with sent_messages := st.sent_messages ++
              [⟨getD c "name" "Unknown",
                format_phone_number (getD c "phone_number" "")⟩] } h
        refine ⟨hd, hc2, hw,
          ⟨getD c "name" "Unknown",
            format_phone_number (getD c "phone_number" "")⟩ :: a, b,
          ?_, hfl, ?_⟩
        · rw [hs]
          simp
        · intro hx
          have := hcount hx
          simp only [List.length_cons, List.length_append]
          omega
      | some e =>
        have hred : loopGo env tmpl delay n i st (c :: rest) =
            ((loopGo env tmpl delay n (i + 1)
                { st with failed_messages := st.failed_messages ++
                  [⟨getD c "name" "Unknown", getD c "phone_number" "", e⟩] }
                rest).1,
             (loopGo env tmpl delay n (i + 1)
                { st with failed_messages := st.failed_messages ++
                  [⟨getD c "name" "Unknown", getD c "phone_number" "", e⟩] }
                rest).2.1,
             [Event.attempt (getD c "name" "Unknown")] ++
               (if i < n then [Event.sleepDelay delay] else []) ++
               (loopGo env tmpl delay n (i + 1)
                  { st with failed_messages := st.failed_messages ++
                    [⟨getD c "name" "Unknown", getD c "phone_number" "",
                      e⟩] }
                  rest).2.2) := by
          simp [loopGo, hf, send_message, h, henv]
        rw [hred]
        obtain ⟨hd, hc2, hw, a, b, hs, hfl, hcount⟩ :=
          ih (i + 1)
            { st with failed_messages := st.failed_messages ++
              [⟨getD c "name" "Unknown", getD c "phone_number" "", e⟩] } h
        refine ⟨hd, hc2, hw, a,
          ⟨getD c "name" "Unknown", getD c "phone_number" "", e⟩ :: b,
          hs, ?_, ?_⟩
        · rw [hfl]
          simp
        · intro hx
          have := hcount hx
          simp only [List.length_cons, List.length_append]
          omega

/-- In the open-success branch, send_bulk_messages is the loop's final state
with the driver quit by the finally block, the exception or summary surfaced
from the loop's outcome, and the loop's event trace. -/
theorem send_bulk_run (env : Nat → Option String) (st : SenderState)
    (tmpl : Template) (d : Nat) (hc : st.contacts ≠ []) :
    send_bulk_messages true env st tmpl d =
      ({ (loopGo env tmpl d st.contacts.length 1 { st with driver := true }
            st.contacts).1 with driver := false },
       match (loopGo env tmpl d st.contacts.length 1
            { st with driver := true } st.contacts).2.1 with
       | some k => RunResult.exn k
       | none => RunResult.summary st.contacts.length
           (loopGo env tmpl d st.contacts.length 1 { st with driver := true }
              st.contacts).1.sent_messages.length
           (loopGo env tmpl d st.contacts.length 1 { st with driver := true }
              st.contacts).1.failed_messages.length
           (bulk_success_rate st.contacts
             (loopGo env tmpl d st.contacts.length 1
                { st with driver := true } st.contacts).1.sent_messages.length),
       (loopGo env tmpl d st.contacts.length 1 { st with driver := true }
          st.contacts).2.2) := by
  unfold send_bulk_messages open_whatsapp_web
  rw [if_neg hc]
  simp only [if_true]
  cases hexc : (loopGo env tmpl d st.contacts.length 1
      { st with driver := true } st.contacts).2.1 with
  | none => simp [hexc]
  | some k => simp [hexc]

/-! ## C2: one outcome per attempted contact -/

/-- Claim C2: whenever send_bulk_messages completes and returns a summary
dict, the number of entries appended to the sent list plus the number
appended to the failed list during the run equals the summary's total field,
which is the number of contacts attempted. -/
theorem claim2_conservation (openOk : Bool) (env : Nat → Option String)
    (st : SenderState) (tmpl : Template) (d : Nat) (t : Nat)
    (h : ((send_bulk_messages openOk env st tmpl d).2.1).total? = some t) :
    (send_bulk_messages openOk env st tmpl d).1.sent_messages.length +
      (send_bulk_messages openOk env st tmpl d).1.failed_messages.length =
      st.sent_messages.length + st.failed_messages.length + t := by
  by_cases hc : st.contacts = []
  · rw [claim5_amended.1 openOk env st tmpl d hc] at h
    simp [RunResult.total?] at h
  · cases openOk with
    | false =>
      rw [claim4_amended env st tmpl d hc] at h
      simp [RunResult.total?] at h
    | true =>
      obtain ⟨hd, hc2, hw, a, b, hs, hfl, hcount⟩ :=
        loopGo_spec env tmpl d st.contacts.length st.contacts 1
          { st with driver := true } rfl
      have hrun := send_bulk_run env st tmpl d hc
      cases hexc : (loopGo env tmpl d st.contacts.length 1
          { st with driver := true } st.contacts).2.1 with
      | some k =>
        have h21 : (send_bulk_messages true env st tmpl d).2.1 =
            RunResult.exn k := by rw [hrun, hexc]
        rw [h21] at h
        simp [RunResult.total?] at h
      | none =>
        have h21 : (send_bulk_messages true env st tmpl d).2.1 =
            RunResult.summary st.contacts.length
              (loopGo env tmpl d st.contacts.length 1
                { st with driver := true } st.contacts).1.sent_messages.length
              (loopGo env tmpl d st.contacts.length 1
                { st with driver := true }
                st.contacts).1.failed_messages.length
              (bulk_success_rate st.contacts
                (loopGo env tmpl d st.contacts.length 1
                  { st with driver := true }
                  st.contacts).1.sent_messages.length) := by
          rw [hrun, hexc]
        have hsent : (send_bulk_messages true env st tmpl d).1.sent_messages =
            (loopGo env tmpl d st.contacts.length 1 { st with driver := true }
              st.contacts).1.sent_messages := by rw [hrun]
        have hfail :
            (send_bulk_messages true env st tmpl d).1.failed_messages =
            (loopGo env tmpl d st.contacts.length 1 { st with driver := true }
              st.contacts).1.failed_messages := by rw [hrun]
        rw [h21] at h
        simp only [RunResult.total?, Option.some.injEq] at h
        rw [hsent, hfail, hs, hfl]
        simp only [List.length_append]
        have := hcount hexc
        omega

/-- Closed witness for C2 at a concrete one-contact run. -/
theorem claim2_witness :
    (send_bulk_messages true (fun _ => none) cState
        [TemplatePart.lit "Hi"] 5).1.sent_messages.length +
      (send_bulk_messages true (fun _ => none) cState
        [TemplatePart.lit "Hi"] 5).1.failed_messages.length =
      cState.sent_messages.length + cState.failed_messages.length + 1 :=
  claim2_conservation true (fun _ => none) cState [TemplatePart.lit "Hi"] 5
    1 rfl

/-! ## C3: pacing between sends -/

/-- When every contact formats, the loop's event trace is the explicit
per-contact formula traceFrom. -/
theorem loopGo_trace (env : Nat → Option String) (tmpl : Template)
    (delay n : Nat) :
    ∀ (cs : List Contact) (i : Nat) (st : SenderState), st.driver = true →
    (∀ c ∈ cs, ∃ msg, pyFormat tmpl c = .ok msg) →
    (loopGo env tmpl delay n i st cs).2.2 =
      traceFrom env st.wait_time delay n i cs := by
  intro cs
  induction cs with
  | nil =>
    intro i st h hfmt
    rfl
  | cons c rest ih =>
    intro i st h hfmt
    obtain ⟨msg, hf⟩ := hfmt c (List.mem_cons_self c rest)
    cases henv : env i with
    | none =>
      have hrest := ih (i + 1)
        { st with sent_messages := st.sent_messages ++
          [⟨getD c "name" "Unknown",
            format_phone_number (getD c "phone_number" "")⟩] } h
        (fun x hx => hfmt x (List.mem_cons_of_mem c hx))
      simp only [loopGo, send_message, hf, h, henv, if_true] at hrest ⊢
      rw [hrest]
      simp [traceFrom, henv]
    | some e =>
      have hrest := ih (i + 1)
        { st with failed_messages := st.failed_messages ++
          [⟨getD c "name" "Unknown", getD c "phone_number" "", e⟩] } h
        (fun x hx => hfmt x (List.mem_cons_of_mem c hx))
      simp only [loopGo, send_message, hf, h, henv, if_true] at hrest ⊢
      rw [hrest]
      simp [traceFrom, henv]

/-- The trace of a nonempty remainder is nonempty: it opens with the first
contact's attempt event. -/
theorem traceFrom_ne_nil (env : Nat → Option String) (wt delay n i : Nat)
    (c : Contact) (rest : List Contact) :
    traceFrom env wt delay n i (c :: rest) ≠ [] := by
  simp [traceFrom]


theorem isDelay_attempt (nm : String) :
    Event.isDelay (Event.attempt nm) = false := rfl

theorem isDelay_sleepWait (t : Nat) :
    Event.isDelay (Event.sleepWait t) = false := rfl

theorem isDelay_sleepDelay (t : Nat) :
    Event.isDelay (Event.sleepDelay t) = true := rfl

/-- Exactly one delay_seconds sleep per contact except the last: walking the
remainder cs from 1-based position i with i + len cs = n + 1, the trace holds
len cs - 1 delay sleeps, whatever the per-send outcomes were. -/
theorem traceFrom_countP (env : Nat → Option String) (wt delay n : Nat) :
    ∀ (cs : List Contact) (i : Nat), i + cs.length = n + 1 →
    (traceFrom env wt delay n i cs).countP Event.isDelay = cs.length - 1 := by
  intro cs
  induction cs with
  | nil => intro i hlen; rfl
  | cons c rest ih =>
    intro i hlen
    cases rest with
    | nil =>
      have hi : i = n := by
        simp only [List.length_cons, List.length_nil] at hlen
        omega
      subst hi
      cases henv : env i with
      | none =>
        simp [traceFrom, henv, isDelay_attempt, isDelay_sleepWait,
          lt_self_iff_false, List.countP_cons, List.countP_nil,
          List.countP_append]
      | some e =>
        simp [traceFrom, henv, isDelay_attempt, lt_self_iff_false,
          List.countP_cons, List.countP_nil, List.countP_append]
    | cons r rs =>
      have hlt : i < n := by
        simp only [List.length_cons] at hlen
        omega
      have hlen2 : (i + 1) + (r :: rs).length = n + 1 := by
        simp only [List.length_cons] at hlen ⊢
        omega
      have hrest := ih (i + 1) hlen2
      rw [traceFrom, List.countP_append, hrest]
      cases henv : env i with
      | none =>
        simp [henv, hlt, List.countP_append, List.countP_cons,
          List.countP_nil, isDelay_attempt, isDelay_sleepWait,
          isDelay_sleepDelay, List.length_cons]
        omega
      | some e =>
        simp [henv, hlt, List.countP_append, List.countP_cons,
          List.countP_nil, isDelay_attempt, isDelay_sleepDelay,
          List.length_cons]
        omega

/-- The last event of the trace: when the last send succeeded it is the
wait_time sleep inside send_message; when it failed it is that contact's
attempt. Either way it is never the delay_seconds sleep. -/
theorem traceFrom_getLast (env : Nat → Option String) (wt delay n : Nat) :
    ∀ (cs : List Contact) (i : Nat) (c0 : Contact),
    i + cs.length = n + 1 → cs.getLast? = some c0 →
    (traceFrom env wt delay n i cs).getLast? = some
      (match env n with
       | none => Event.sleepWait wt
       | some _ => Event.attempt (getD c0 "name" "Unknown")) := by
  intro cs
  induction cs with
  | nil => intro i c0 hlen hlast; simp at hlast
  | cons c rest ih =>
    intro i c0 hlen hlast
    cases rest with
    | nil =>
      have hi : i = n := by
        simp only [List.length_cons, List.length_nil] at hlen
        omega
      subst hi
      simp only [List.getLast?_singleton, Option.some.injEq] at hlast
      subst hlast
      cases henv : env i with
      | none => simp [traceFrom, henv, lt_self_iff_false]
      | some e => simp [traceFrom, henv, lt_self_iff_false]
    | cons r rs =>
      have hlen2 : (i + 1) + (r :: rs).length = n + 1 := by
        simp only [List.length_cons] at hlen ⊢
        omega
      rw [traceFrom]
      rw [List.getLast?_append_of_ne_nil _
        (traceFrom_ne_nil env wt delay n (i + 1) r rs)]
      rw [List.getLast?_cons_cons] at hlast
      exact ih (i + 1) c0 hlen2 hlast

/-- Claim C3, counterexample: in a one-contact run whose send succeeds, the
whole trace is the attempt followed by a pause (the wait_time sleep of
send_message, the code's own wait between messages), so a pause does occur
after the last contact, contrary to the claim's final part. -/
theorem claim3_counterexample :
    (send_bulk_messages true (fun _ => none) cState
        [TemplatePart.lit "Hi"] 5).2.2 =
      [Event.attempt "A", Event.sleepWait 2] := by
  rfl

/-- Claim C3 (amended): for every contact except the last there is exactly
one delay_seconds pause before the next iteration, unconditionally and
identically whether the send succeeded or failed (the count n - 1 holds for
every success oracle); after the last contact no delay_seconds pause occurs
(the trace never ends in one), but when the last send succeeds the trace
ends with the wait_time pause taken inside send_message. -/
theorem claim3_amended (st : SenderState) (env : Nat → Option String)
    (tmpl : Template) (d : Nat) (hne : st.contacts ≠ [])
    (hfmt : ∀ c ∈ st.contacts, ∃ msg, pyFormat tmpl c = .ok msg) :
    ((send_bulk_messages true env st tmpl d).2.2.countP Event.isDelay =
      st.contacts.length - 1) ∧
    (∀ ev, (send_bulk_messages true env st tmpl d).2.2.getLast? = some ev →
      ev.isDelay = false) ∧
    (env st.contacts.length = none →
      (send_bulk_messages true env st tmpl d).2.2.getLast? =
        some (Event.sleepWait st.wait_time)) := by
  have hev : (send_bulk_messages true env st tmpl d).2.2 =
      (loopGo env tmpl d st.contacts.length 1 { st with driver := true }
        st.contacts).2.2 := by
    rw [send_bulk_run env st tmpl d hne]
  have hdrv : ({ st with driver := true } : SenderState).driver = true := rfl
  have htr := loopGo_trace env tmpl d st.contacts.length st.contacts 1
    { st with driver := true } hdrv hfmt
  have hwt : ({ st with driver := true } : SenderState).wait_time =
      st.wait_time := rfl
  rw [hwt] at htr
  have hlen : 1 + st.contacts.length = st.contacts.length + 1 := by omega
  obtain ⟨c0, hc0⟩ := Option.isSome_iff_exists.mp
    (by rw [List.getLast?_isSome]; exact hne)
  have hglast := traceFrom_getLast env st.wait_time d st.contacts.length
    st.contacts 1 c0 hlen hc0
  refine ⟨?_, ?_, ?_⟩
  · rw [hev, htr]
    exact traceFrom_countP env st.wait_time d st.contacts.length
      st.contacts 1 hlen
  · intro ev hl
    rw [hev, htr, hglast] at hl
    cases henv : env st.contacts.length with
    | none =>
      rw [henv] at hl
      rw [← Option.some.inj hl]
      rfl
    | some e =>
      rw [henv] at hl
      rw [← Option.some.inj hl]
      rfl
  · intro henv
    rw [hev, htr, hglast, henv]

/-- Closed witness for the amended C3 at a concrete one-contact run. -/
theorem claim3_witness :
    (send_bulk_messages true (fun _ => none) cState
        [TemplatePart.lit "Hi"] 5).2.2.countP Event.isDelay = 0 ∧
    (send_bulk_messages true (fun _ => none) cState
        [TemplatePart.lit "Hi"] 5).2.2.getLast? =
      some (Event.sleepWait 2) := by
  have h := claim3_amended cState (fun _ => none) [TemplatePart.lit "Hi"] 5
    (by decide)
    (by
      intro c hc
      simp [cState] at hc
      subst hc
      exact ⟨"Hi", rfl⟩)
  exact ⟨h.1, h.2.2 rfl⟩

/-! ## C8: the two success-rate denominators -/

/-- Claim C8: get_report computes its summary rate over sent+failed while
the run summary (bulk_success_rate) divides by the attempted-contact count;
whenever every attempted contact produced exactly one outcome, i.e.
len sent + len failed equals the contact count, the two rates coincide. -/
theorem claim8_rates (st : SenderState)
    (h : st.sent_messages.length + st.failed_messages.length =
      st.contacts.length) :
    (get_report st).summary.success_rate =
      bulk_success_rate st.contacts st.sent_messages.length := by
  simp only [get_report, bulk_success_rate]
  by_cases hc : st.contacts = []
  · rw [if_pos hc]
    rw [hc] at h
    simp only [List.length_nil] at h
    have hs : st.sent_messages = [] := List.length_eq_zero.mp (by omega)
    have hf : st.failed_messages = [] := List.length_eq_zero.mp (by omega)
    rw [if_pos ⟨hs, hf⟩]
  · rw [if_neg hc]
    have hpos : 0 < st.contacts.length := List.length_pos.mpr hc
    have hcond : ¬(st.sent_messages = [] ∧ st.failed_messages = []) := by
      rintro ⟨hs2, hf2⟩
      rw [hs2, hf2] at h
      simp at h
      omega
    rw [if_neg hcond, h]

/-- A sender state after a fully successful one-contact run: one sent
outcome, no failed outcome. -/
def cStateR : SenderState :=
  { contacts := [cC1], sent_messages := [⟨"A", "+911"⟩],
    failed_messages := [], driver := false, wait_time := 2 }

/-- Closed witness for C8 at a concrete state where counts match. -/
theorem claim8_witness :
    (get_report cStateR).summary.success_rate =
      bulk_success_rate cStateR.contacts cStateR.sent_messages.length :=
  claim8_rates cStateR rfl

/-! ## C10: outcomes accumulate across runs -/

/-- Claim C10: send_bulk_messages never resets the two outcome lists: every
run only appends to them, whatever the branch taken; and concretely, running
the same two-contact, all-successful send twice on one sender yields a
second summary counting the four accumulated sent entries against the
current two contacts, a success rate of 200, exceeding 100 percent. -/
theorem claim10_accumulation :
    (∀ (openOk : Bool) (env : Nat → Option String) (st : SenderState)
        (tmpl : Template) (d : Nat), ∃ a b,
      (send_bulk_messages openOk env st tmpl d).1.sent_messages =
        st.sent_messages ++ a ∧
      (send_bulk_messages openOk env st tmpl d).1.failed_messages =
        st.failed_messages ++ b) ∧
    (send_bulk_messages true (fun _ => none)
        (send_bulk_messages true (fun _ => none) cState2
          [TemplatePart.lit "Hi"] 5).1
        [TemplatePart.lit "Hi"] 5).2.1 =
      RunResult.summary 2 4 0 200 ∧
    (100 : ℚ) < 200 := by
  refine ⟨?_, ?_, by norm_num⟩
  · intro openOk env st tmpl d
    by_cases hc : st.contacts = []
    · rw [claim5_amended.1 openOk env st tmpl d hc]
      exact ⟨[], [], (List.append_nil _).symm, (List.append_nil _).symm⟩
    · cases openOk with
      | false =>
        rw [claim4_amended env st tmpl d hc]
        exact ⟨[], [], (List.append_nil _).symm, (List.append_nil _).symm⟩
      | true =>
        obtain ⟨hd, hc2, hw, a, b, hs, hfl, hcount⟩ :=
          loopGo_spec env tmpl d st.contacts.length st.contacts 1
            { st with driver := true } rfl
        have hsent :
            (send_bulk_messages true env st tmpl d).1.sent_messages =
            (loopGo env tmpl d st.contacts.length 1 { st with driver := true }
              st.contacts).1.sent_messages := by
          rw [send_bulk_run env st tmpl d hc]
        have hfail :
            (send_bulk_messages true env st tmpl d).1.failed_messages =
            (loopGo env tmpl d st.contacts.length 1 { st with driver := true }
              st.contacts).1.failed_messages := by
          rw [send_bulk_run env st tmpl d hc]
        refine ⟨a, b, ?_, ?_⟩
        · rw [hsent]
          exact hs
        · rw [hfail]
          exact hfl
  · have h1 : (send_bulk_messages true (fun _ => none)
          (send_bulk_messages true (fun _ => none) cState2
            [TemplatePart.lit "Hi"] 5).1
          [TemplatePart.lit "Hi"] 5).2.1 =
        RunResult.summary 2 4 0 (bulk_success_rate [cC1, cC2] 4) := rfl
    have h2 : bulk_success_rate [cC1, cC2] 4 = 200 := by
      simp [bulk_success_rate]
      norm_num
    rw [h1, h2]
